import Mathlib

/-!
Verification of the CronoPlan backend authentication subsystem.

The definitions below are a shallow embedding of the Python sources:
  * `app/config.py` — process-wide settings,
  * `app/routers/auth.py` — token issuance, the identity reconciler
    (`create_user_profile`, `get_or_create_user_profile`) and the session
    flow endpoints (`register`, `refresh_token`, `update_profile`),
  * `app/dependencies/auth.py` — `AuthDependency.verify_token` and
    `AuthDependency.get_current_user`,
  * `app/schemas/auth.py` — the pydantic request/response models.

Time is modelled as integral seconds since the epoch (`Nat`), matching the
integer `exp`/`iat` claims PyJWT encodes.  Backoff delays are recorded in
milliseconds (the sources use seconds as floats: 0.2 s = 200 ms, 0.3 s =
300 ms; doubling a float is exact, so the integer model is faithful).
The external store (Supabase) is modelled as an oracle giving the outcome of
each read/insert attempt, since its behaviour is outside this repository.
-/

deriving instance DecidableEq for Except

/-- Process-wide configuration (`app/config.py`, class `Settings`).
`SECRET_KEY`, `ALGORITHM` (default `"HS256"`) and
`ACCESS_TOKEN_EXPIRE_MINUTES` (default `60 * 24 * 7`) are declared there.
Modelled from the spec: the field `REFRESH_TOKEN_EXPIRE_DAYS` is read by
`create_refresh_token` (`app/routers/auth.py` lines 71-72) but is not
declared in `config.py`; the spec states refresh tokens carry a long,
configurable TTL measured in days, so it is included here as a `Nat`. -/
structure Settings where
  SECRET_KEY : String
  ALGORITHM : String := "HS256"
  ACCESS_TOKEN_EXPIRE_MINUTES : Nat := 60 * 24 * 7
  REFRESH_TOKEN_EXPIRE_DAYS : Nat
deriving Repr, DecidableEq

/-- The claim set carried by a session token: `sub`, `email`, `exp`, `iat`
and the token-kind discriminant `type` (`"access"` or `"refresh"`).
`sub`, `email` and `type` are optional because `payload.get(...)` on a
decoded JWT dictionary may return `None`. -/
structure Claims where
  sub : Option String
  email : Option String
  exp : Nat
  iat : Nat
  type : Option String
deriving Repr, DecidableEq

/-- A signed JWT: the payload together with the key and algorithm it was
signed with.  Signature verification in `jwtDecode` checks that the token
was produced with the verifier's key and an accepted algorithm. -/
structure Token where
  payload : Claims
  key : String
  alg : String
deriving Repr, DecidableEq

/-- `jwt.encode(to_encode, key, algorithm=alg)`. -/
def jwtEncode (payload : Claims) (key : String) (alg : String) : Token :=
  ⟨payload, key, alg⟩

/-- The PyJWT exceptions distinguished by the sources:
`jwt.ExpiredSignatureError` and `jwt.InvalidTokenError` (the latter also
covers a bad signature or a disallowed algorithm). -/
inductive JwtError where
  | expiredSignature
  | invalidToken
deriving Repr, DecidableEq

/-- `jwt.decode(token, key, algorithms=algs)` evaluated at time `now`:
a token signed with a different key or algorithm raises
`InvalidTokenError`; otherwise the `exp` claim is checked (PyJWT raises
`ExpiredSignatureError` when `exp <= now`, with zero leeway); on success
the full payload is returned. -/
def jwtDecode (tok : Token) (key : String) (algs : List String) (now : Nat) :
    Except JwtError Claims :=
  if tok.key = key ∧ algs.contains tok.alg then
    if tok.payload.exp ≤ now then .error .expiredSignature
    else .ok tok.payload
  else .error .invalidToken

/-- `create_access_token(user_id, email)` (`app/routers/auth.py` lines
37-61).  The function reads the clock twice: `tExp` is the `utcnow()` used
to compute `expire`, `tIat` the `utcnow()` stored as `iat`.  Returns the
encoded token together with `expires_in` in seconds. -/
def create_access_token (s : Settings) (user_id email : String)
    (tExp tIat : Nat) : Token × Nat :=
  let expire := tExp + s.ACCESS_TOKEN_EXPIRE_MINUTES * 60
  let expires_in := s.ACCESS_TOKEN_EXPIRE_MINUTES * 60
  (jwtEncode ⟨some user_id, some email, expire, tIat, some "access"⟩
    s.SECRET_KEY s.ALGORITHM, expires_in)

/-- `create_refresh_token(user_id, email)` (`app/routers/auth.py` lines
64-88), analogous to `create_access_token` with a TTL of
`REFRESH_TOKEN_EXPIRE_DAYS` days and kind `"refresh"`. -/
def create_refresh_token (s : Settings) (user_id email : String)
    (tExp tIat : Nat) : Token × Nat :=
  let expire := tExp + s.REFRESH_TOKEN_EXPIRE_DAYS * 24 * 60 * 60
  let expires_in := s.REFRESH_TOKEN_EXPIRE_DAYS * 24 * 60 * 60
  (jwtEncode ⟨some user_id, some email, expire, tIat, some "refresh"⟩
    s.SECRET_KEY s.ALGORITHM, expires_in)

/-- `fastapi.HTTPException`: a status code and a detail message. -/
structure HTTPException where
  status_code : Nat
  detail : String
deriving Repr, DecidableEq

/-- Python truthiness of `payload.get("sub")`: `None` and the empty string
are falsy. -/
def truthyOptStr : Option String → Bool
  | none => false
  | some s => s ≠ ""

/-- `AuthDependency.verify_token(token, token_type)`
(`app/dependencies/auth.py` lines 17-74), evaluated at time `now`: decode
(signature and expiry), then reject a `type` claim different from the
expected kind, then reject a missing/empty `sub`; on success return the
payload.  The three rejection reasons and the malformed-token reason all
map to HTTP 401 but carry distinct detail messages. -/
def verify_token (s : Settings) (tok : Token) (token_type : String)
    (now : Nat) : Except HTTPException Claims :=
  match jwtDecode tok s.SECRET_KEY [s.ALGORITHM] now with
  | .ok payload =>
    if payload.type ≠ some token_type then
      .error ⟨401, "Token inválido: se esperaba un " ++ token_type ++ " token"⟩
    else if ¬ truthyOptStr payload.sub then
      .error ⟨401, "Token inválido: información de usuario incompleta"⟩
    else
      .ok payload
  | .error .expiredSignature =>
      .error ⟨401, "Tu sesión ha expirado. Por favor, inicia sesión nuevamente."⟩
  | .error .invalidToken =>
      .error ⟨401, "Token de autenticación inválido. Por favor, inicia sesión."⟩

/-- A profile row / profile dictionary as handled by the reconciler
(`users` table row): `id` keyed to the identity, plus `email`,
`full_name`, `phone`, `avatar_url` and `created_at`. -/
structure Profile where
  id : String
  email : Option String
  full_name : Option String
  phone : Option String
  avatar_url : Option String
  created_at : Option Nat
deriving Repr, DecidableEq

/-- Outcome of one `supabase.table("users").select("*").eq("id", uid)
.single().execute()` attempt: a (truthy) row, a falsy `data`, or a raised
exception carrying a message. -/
inductive ReadResult where
  | found (p : Profile)
  | emptyData
  | errMsg (msg : String)
deriving Repr, DecidableEq

/-- Outcome of one `supabase.table("users").insert(user_data).execute()`
attempt: a non-empty `data` list whose head is the inserted row, an empty
`data`, or a raised exception carrying a message. -/
inductive InsertResult where
  | inserted (p : Profile)
  | emptyData
  | errMsg (msg : String)
deriving Repr, DecidableEq

/-- Boolean prefix test on character lists (used to decide Python's
substring containment). -/
def charListIsPref : List Char → List Char → Bool
  | [], _ => true
  | _ :: _, [] => false
  | a :: as, b :: bs => a = b && charListIsPref as bs

/-- Boolean infix test on character lists. -/
def charListInfixOf (pat : List Char) : List Char → Bool
  | [] => pat.isEmpty
  | c :: rest => charListIsPref pat (c :: rest) || charListInfixOf pat rest

/-- Python `s.lower()` (the error messages matched by the sources are
ASCII, where `Char.toLower` agrees with Python). -/
def pyLower (s : String) : String := ⟨s.toList.map Char.toLower⟩

/-- Python `pat in s` substring containment. -/
def pyInStr (pat s : String) : Bool := charListInfixOf pat.toList s.toList

/-- The "record does not exist" test of `get_or_create_user_profile`
(`app/routers/auth.py` lines 163-166): the lowered exception message
contains `"no rows"` or `"not found"`. -/
def noRowsErrorMsg (msg : String) : Bool :=
  pyInStr "no rows" (pyLower msg) || pyInStr "not found" (pyLower msg)

/-- The basic/synthesized profile dictionary both reconciler functions fall
back to: the supplied hints plus the identity id, the email, and the
current time as `created_at` (`app/routers/auth.py` lines 117 and 126-133
and 178-185; the two literal dictionaries have identical content). -/
def basic_profile (user_id email : String)
    (full_name phone avatar_url : Option String) (now : Nat) : Profile :=
  ⟨user_id, some email, full_name, phone, avatar_url, some now⟩

/-- The `for attempt in range(max_retries)` loop of `create_user_profile`
(`app/routers/auth.py` lines 99-139), iterating over the list of attempt
indices `range(max_retries)`.  `ins attempt` is the store's response to the
insert executed on iteration `attempt`.  The first component is the
returned profile (`none` would mean the loop fell through, i.e. the Python
function returned `None`); the second component records the
`asyncio.sleep` delays in milliseconds, in order (`retry_delay` doubles
after each sleep). -/
def create_user_profile_go (ins : Nat → InsertResult) (user_id email : String)
    (full_name phone avatar_url : Option String) (now : Nat)
    (max_retries : Nat) : List Nat → Nat → Option Profile × List Nat
  | [], _ => (none, [])
  | attempt :: rest, retry_delay =>
    match ins attempt with
    | .inserted p => (some p, [])
    | .emptyData =>
        (some (basic_profile user_id email full_name phone avatar_url now), [])
    | .errMsg _ =>
      if attempt = max_retries - 1 then
        (some (basic_profile user_id email full_name phone avatar_url now), [])
      else
        let r := create_user_profile_go ins user_id email full_name phone
          avatar_url now max_retries rest (retry_delay * 2)
        (r.1, retry_delay :: r.2)

/-- `create_user_profile(supabase, user_id, email, full_name, phone,
avatar_url)` (`app/routers/auth.py` lines 91-139): `max_retries = 5`,
initial `retry_delay = 0.3` s = 300 ms. -/
def create_user_profile (ins : Nat → InsertResult) (user_id email : String)
    (full_name phone avatar_url : Option String) (now : Nat) :
    Option Profile × List Nat :=
  create_user_profile_go ins user_id email full_name phone avatar_url now 5
    (List.range 5) 300

/-- The `for attempt in range(max_retries)` loop of
`get_or_create_user_profile` (`app/routers/auth.py` lines 150-185).
`rd attempt` is the store's response to the read executed on iteration
`attempt`; `ins` is handed to `create_user_profile` when the code decides
the row must be created (at most one such delegation per run). -/
def get_or_create_user_profile_go (rd : Nat → ReadResult)
    (ins : Nat → InsertResult) (user_id email : String)
    (full_name phone avatar_url : Option String) (now : Nat)
    (max_retries : Nat) : List Nat → Nat → Option Profile × List Nat
  | [], _ => (none, [])
  | attempt :: rest, retry_delay =>
    match rd attempt with
    | .found p => (some p, [])
    | .emptyData =>
        create_user_profile ins user_id email full_name phone avatar_url now
    | .errMsg m =>
      if noRowsErrorMsg m then
        create_user_profile ins user_id email full_name phone avatar_url now
      else if attempt < max_retries - 1 then
        let r := get_or_create_user_profile_go rd ins user_id email full_name
          phone avatar_url now max_retries rest (retry_delay * 2)
        (r.1, retry_delay :: r.2)
      else
        (some (basic_profile user_id email full_name phone avatar_url now), [])

/-- `get_or_create_user_profile(supabase, user_id, email, full_name,
phone, avatar_url)` (`app/routers/auth.py` lines 142-185):
`max_retries = 3`, initial `retry_delay = 0.2` s = 200 ms. -/
def get_or_create_user_profile (rd : Nat → ReadResult)
    (ins : Nat → InsertResult) (user_id email : String)
    (full_name phone avatar_url : Option String) (now : Nat) :
    Option Profile × List Nat :=
  get_or_create_user_profile_go rd ins user_id email full_name phone avatar_url
    now 3 (List.range 3) 200

/-- `AuthDependency.get_current_user` (`app/dependencies/auth.py` lines
120-156) for an already-verified `user_id`: the profile read result is the
store's response to `select("*").eq("id", user_id).single().execute()`.
A truthy row is returned; a falsy `data` raises HTTP 404 (re-raised through
the `isinstance(e, HTTPException)` branch of the handler); any other
exception becomes HTTP 500. -/
def get_current_user (rd : ReadResult) (user_id : String) :
    Except HTTPException Profile :=
  match rd with
  | .found p => .ok p
  | .emptyData =>
      .error ⟨404,
        "Usuario no encontrado. Es posible que tu cuenta haya sido eliminada."⟩
  | .errMsg _ => .error ⟨500, "Error al obtener información del usuario"⟩

/-- `RegisterRequest` (`app/schemas/auth.py` lines 15-30). -/
structure RegisterRequest where
  email : String
  password : String
  full_name : Option String
  phone : Option String
deriving Repr, DecidableEq

/-- `UpdateProfileRequest` (`app/schemas/auth.py` lines 47-60): any subset
of the three optional fields. -/
structure UpdateProfileRequest where
  full_name : Option String
  phone : Option String
  avatar_url : Option String
deriving Repr, DecidableEq

/-- Modelled from the spec: `RefreshTokenRequest` is imported by
`app/routers/auth.py` line 12 and used as the body of `POST /auth/refresh`,
but no definition appears in `app/schemas/auth.py`; the spec gives the
request body as `{refresh_token}`. -/
structure RefreshTokenRequest where
  refresh_token : Token
deriving Repr, DecidableEq

/-- `UserResponse` (`app/schemas/auth.py` lines 67-77). -/
structure UserResponse where
  id : String
  email : Option String
  full_name : Option String
  phone : Option String
  avatar_url : Option String
  created_at : Option Nat
deriving Repr, DecidableEq

/-- `AuthResponse` (`app/schemas/auth.py` lines 80-102).  Its declared
fields are exactly `access_token`, `token_type` (default `"bearer"`),
`expires_in` and `user`; there is no `refresh_token` field. -/
structure AuthResponse where
  access_token : Token
  token_type : String
  expires_in : Nat
  user : UserResponse
deriving Repr, DecidableEq

/-- The constructor call `AuthResponse(access_token=..., refresh_token=...,
token_type=..., expires_in=..., user=...)` as written in the handlers
(`app/routers/auth.py` lines 269-275, 373-379, 467-473, 581-587): pydantic
models silently ignore keyword arguments that are not declared fields (the
default is `extra="ignore"`), so the `refresh_token` argument is dropped
and does not appear in the constructed model. -/
def mkAuthResponse (access_token refresh_token : Token) (token_type : String)
    (expires_in : Nat) (user : UserResponse) : AuthResponse :=
  ⟨access_token, token_type, expires_in, user⟩

/-- The field names of `AuthResponse` (`app/schemas/auth.py` lines 80-85).
With `response_model=AuthResponse` on the register/login/refresh/google
routes, these are exactly the keys of the serialized JSON response body. -/
def authResponseKeys : List String :=
  ["access_token", "token_type", "expires_in", "user"]

/-- Outcome of `supabase.auth.sign_up(...)` as observed by `register`:
a user object (id and email), a response without a user, or a raised
exception carrying a message. -/
inductive SignUpResult where
  | user (id email : String)
  | noUser
  | raised (msg : String)
deriving Repr, DecidableEq

/-- The `register` endpoint handler (`app/routers/auth.py` lines 204-305).
`su` is the identity provider's response to `sign_up`, `ins` the store
oracle handed to `create_user_profile`, `now` the clock.  The exception
classification of lines 279-305 inspects the lowered message for known
substrings. -/
def register (s : Settings) (su : SignUpResult) (ins : Nat → InsertResult)
    (data : RegisterRequest) (now : Nat) : Except HTTPException AuthResponse :=
  match su with
  | .noUser =>
      .error ⟨400,
        "No se pudo crear el usuario. Verifica que el email sea válido y no esté ya registrado."⟩
  | .raised msg =>
    if pyInStr "already registered" (pyLower msg) ||
        pyInStr "already been registered" (pyLower msg) then
      .error ⟨400, "El email ya está registrado"⟩
    else if pyInStr "invalid" (pyLower msg) && pyInStr "email" (pyLower msg) then
      .error ⟨400,
        "El formato del email es inválido o Supabase no permite este email. Verifica la configuración de autenticación en Supabase (Settings > Authentication > Email Auth Settings)"⟩
    else if pyInStr "email" (pyLower msg) && pyInStr "confirmation" (pyLower msg) then
      .error ⟨400,
        "El usuario fue creado pero requiere confirmación por email. Revisa tu bandeja de entrada."⟩
    else
      .error ⟨500, "Error al registrar usuario: " ++ msg⟩
  | .user user_id user_email =>
    match (create_user_profile ins user_id user_email data.full_name
        data.phone none now).1 with
    | none =>
        -- The loop of create_user_profile cannot fall through (proved
        -- below); in Python this would surface as the generic 500 handler.
        .error ⟨500, "Error al registrar usuario: NoneType"⟩
    | some user_profile =>
      let a := create_access_token s user_id user_email now now
      let r := create_refresh_token s user_id user_email now now
      let user_response : UserResponse :=
        ⟨user_id, some user_email, data.full_name, data.phone, none,
          user_profile.created_at⟩
      .ok (mkAuthResponse a.1 r.1 "bearer" a.2 user_response)

/-- The `refresh_token` endpoint handler (`app/routers/auth.py` lines
410-492): decode the presented token with the process secret, reject a
payload whose `type` is not `"refresh"`, reject missing user information,
re-resolve the profile through the tolerant reconciler, then mint a fresh
token pair. -/
def refresh_token_endpoint (s : Settings) (rd : Nat → ReadResult)
    (ins : Nat → InsertResult) (data : RefreshTokenRequest) (now : Nat) :
    Except HTTPException AuthResponse :=
  match jwtDecode data.refresh_token s.SECRET_KEY [s.ALGORITHM] now with
  | .error .expiredSignature =>
      .error ⟨401, "Refresh token expirado. Por favor, inicia sesión nuevamente."⟩
  | .error .invalidToken => .error ⟨401, "Refresh token inválido"⟩
  | .ok payload =>
    if payload.type ≠ some "refresh" then
      .error ⟨401, "Token inválido: no es un refresh token"⟩
    else
      match payload.sub, payload.email with
      | some user_id, some email =>
        if user_id = "" || email = "" then
          .error ⟨401, "Token inválido: información de usuario incompleta"⟩
        else
          match (get_or_create_user_profile rd ins user_id email none none
              none now).1 with
          | none => .error ⟨401, "Usuario no encontrado"⟩
          | some user_profile =>
            let a := create_access_token s user_id email now now
            let r := create_refresh_token s user_id email now now
            let user_response : UserResponse :=
              ⟨user_id, some email, user_profile.full_name,
                user_profile.phone, user_profile.avatar_url,
                user_profile.created_at⟩
            .ok (mkAuthResponse a.1 r.1 "bearer" a.2 user_response)
      | _, _ =>
          .error ⟨401, "Token inválido: información de usuario incompleta"⟩

/-- The `update_data` dictionary built by `update_profile`
(`app/routers/auth.py` lines 695-701): a key is present exactly when the
corresponding request field was provided (not `None`). -/
structure UpdateData where
  full_name : Option String
  phone : Option String
  avatar_url : Option String
deriving Repr, DecidableEq

/-- Lines 695-701: copy each request field into `update_data` only when it
is not `None`. -/
def build_update_data (d : UpdateProfileRequest) : UpdateData :=
  ⟨d.full_name, d.phone, d.avatar_url⟩

/-- A PostgREST partial update applied to one row: only the columns whose
keys are present in `update_data` change. -/
def apply_update (u : UpdateData) (p : Profile) : Profile :=
  { p with
    full_name := (match u.full_name with | some v => some v | none => p.full_name),
    phone := (match u.phone with | some v => some v | none => p.phone),
    avatar_url := (match u.avatar_url with | some v => some v | none => p.avatar_url) }

/-- `supabase.table("users").update(update_data).eq("id", user_id)
.execute()` against a table modelled as a list of rows: every row whose
`id` matches is partially updated; the response `data` is the list of
updated rows. -/
def users_update (users : List Profile) (u : UpdateData) (user_id : String) :
    List Profile × List Profile :=
  (users.map fun p => if p.id = user_id then apply_update u p else p,
   (users.filter fun p => p.id = user_id).map (apply_update u))

/-- The `update_profile` endpoint handler (`app/routers/auth.py` lines
688-735): build `update_data` from the provided fields, reject an empty
update with HTTP 400 before touching the store, otherwise execute the
partial update and serialize the first updated row; an empty `data`
response yields HTTP 404.  Returns the response together with the table
state after the call. -/
def update_profile (d : UpdateProfileRequest) (user_id : String)
    (users : List Profile) : Except HTTPException UserResponse × List Profile :=
  let update_data := build_update_data d
  if update_data = ⟨none, none, none⟩ then
    (.error ⟨400, "Debes proporcionar al menos un campo para actualizar"⟩, users)
  else
    let res := users_update users update_data user_id
    match res.2 with
    | [] => (.error ⟨404, "Usuario no encontrado"⟩, res.1)
    | updated_user :: _ =>
        (.ok ⟨updated_user.id, updated_user.email, updated_user.full_name,
          updated_user.phone, updated_user.avatar_url,
          updated_user.created_at⟩, res.1)

/-! ## Claim theorems -/

/-- C1: Token codec round-trip.  For every valid subject (non-empty, so the
`sub` truthiness check passes), email and clock drift `d` between the two
`utcnow()` reads, a token issued by `create_access_token`
(resp. `create_refresh_token`) and verified with the same expected kind at
any time `tv` before its expiry yields claims with the same subject and
email, and `exp - iat` equals the configured TTL minus the drift (exactly
the TTL when both clock reads coincide). -/
theorem c1_token_codec_roundtrip (s : Settings) (uid email : String)
    (t d tv : Nat) (huid : uid ≠ "") :
    (d ≤ s.ACCESS_TOKEN_EXPIRE_MINUTES * 60 →
      tv < t + s.ACCESS_TOKEN_EXPIRE_MINUTES * 60 →
      ∃ c, verify_token s (create_access_token s uid email t (t + d)).1
          "access" tv = .ok c
        ∧ c.sub = some uid ∧ c.email = some email
        ∧ c.exp - c.iat = s.ACCESS_TOKEN_EXPIRE_MINUTES * 60 - d)
    ∧ (d ≤ s.REFRESH_TOKEN_EXPIRE_DAYS * 24 * 60 * 60 →
      tv < t + s.REFRESH_TOKEN_EXPIRE_DAYS * 24 * 60 * 60 →
      ∃ c, verify_token s (create_refresh_token s uid email t (t + d)).1
          "refresh" tv = .ok c
        ∧ c.sub = some uid ∧ c.email = some email
        ∧ c.exp - c.iat = s.REFRESH_TOKEN_EXPIRE_DAYS * 24 * 60 * 60 - d) := by
  constructor
  · intro hd htv
    have hne : ¬ (t + s.ACCESS_TOKEN_EXPIRE_MINUTES * 60 ≤ tv) := by omega
    refine ⟨⟨some uid, some email, t + s.ACCESS_TOKEN_EXPIRE_MINUTES * 60,
      t + d, some "access"⟩, ?_, rfl, rfl, ?_⟩
    · simp [verify_token, create_access_token, jwtEncode, jwtDecode, truthyOptStr,
        huid, hne]
    · show t + s.ACCESS_TOKEN_EXPIRE_MINUTES * 60 - (t + d)
        = s.ACCESS_TOKEN_EXPIRE_MINUTES * 60 - d
      omega
  · intro hd htv
    have hne : ¬ (t + s.REFRESH_TOKEN_EXPIRE_DAYS * 24 * 60 * 60 ≤ tv) := by omega
    refine ⟨⟨some uid, some email, t + s.REFRESH_TOKEN_EXPIRE_DAYS * 24 * 60 * 60,
      t + d, some "refresh"⟩, ?_, rfl, rfl, ?_⟩
    · simp [verify_token, create_refresh_token, jwtEncode, jwtDecode, truthyOptStr,
        huid, hne]
    · show t + s.REFRESH_TOKEN_EXPIRE_DAYS * 24 * 60 * 60 - (t + d)
        = s.REFRESH_TOKEN_EXPIRE_DAYS * 24 * 60 * 60 - d
      omega

/-- Witness for C1 at concrete inputs: settings with a 1-minute access TTL
and a 2-day refresh TTL, subject `"u1"`, zero clock drift, verification at
issuance time. -/
theorem c1_token_codec_roundtrip_witness :
    (∃ c, verify_token ⟨"sec", "HS256", 1, 2⟩
        (create_access_token ⟨"sec", "HS256", 1, 2⟩ "u1" "a@x.com" 1000 (1000 + 0)).1
        "access" 1000 = .ok c
      ∧ c.sub = some "u1" ∧ c.email = some "a@x.com" ∧ c.exp - c.iat = 60)
    ∧ (∃ c, verify_token ⟨"sec", "HS256", 1, 2⟩
        (create_refresh_token ⟨"sec", "HS256", 1, 2⟩ "u1" "a@x.com" 1000 (1000 + 0)).1
        "refresh" 1000 = .ok c
      ∧ c.sub = some "u1" ∧ c.email = some "a@x.com" ∧ c.exp - c.iat = 172800) := by
  have h := c1_token_codec_roundtrip ⟨"sec", "HS256", 1, 2⟩ "u1" "a@x.com"
    1000 0 1000 (by decide)
  exact ⟨h.1 (by decide) (by decide), h.2 (by decide) (by decide)⟩

/-- C2: Token-kind enforcement.  A not-yet-expired access token verified
with expected kind `"refresh"` (and symmetrically a refresh token verified
with expected kind `"access"`) is rejected with HTTP 401 and the
kind-mismatch detail; and the refresh endpoint, presented with an
access-kind token, rejects it with HTTP 401 ("no es un refresh token")
without issuing any token pair (the result is an error, not an
`AuthResponse`). -/
theorem c2_kind_enforcement (s : Settings) (uid email : String)
    (t tIat tv : Nat) :
    (tv < t + s.ACCESS_TOKEN_EXPIRE_MINUTES * 60 →
      verify_token s (create_access_token s uid email t tIat).1 "refresh" tv
        = .error ⟨401, "Token inválido: se esperaba un refresh token"⟩)
    ∧ (tv < t + s.REFRESH_TOKEN_EXPIRE_DAYS * 24 * 60 * 60 →
      verify_token s (create_refresh_token s uid email t tIat).1 "access" tv
        = .error ⟨401, "Token inválido: se esperaba un access token"⟩)
    ∧ (∀ (rd : Nat → ReadResult) (ins : Nat → InsertResult),
      tv < t + s.ACCESS_TOKEN_EXPIRE_MINUTES * 60 →
      refresh_token_endpoint s rd ins
          ⟨(create_access_token s uid email t tIat).1⟩ tv
        = .error ⟨401, "Token inválido: no es un refresh token"⟩) := by
  refine ⟨?_, ?_, ?_⟩
  · intro htv
    have hne : ¬ (t + s.ACCESS_TOKEN_EXPIRE_MINUTES * 60 ≤ tv) := by omega
    simp [verify_token, create_access_token, jwtEncode, jwtDecode, hne]
  · intro htv
    have hne : ¬ (t + s.REFRESH_TOKEN_EXPIRE_DAYS * 24 * 60 * 60 ≤ tv) := by omega
    simp [verify_token, create_refresh_token, jwtEncode, jwtDecode, hne]
  · intro rd ins htv
    have hne : ¬ (t + s.ACCESS_TOKEN_EXPIRE_MINUTES * 60 ≤ tv) := by omega
    simp [refresh_token_endpoint, create_access_token, jwtEncode, jwtDecode, hne]

/-- Witness for C2 at concrete inputs (1-minute access TTL, 2-day refresh
TTL, verification at issuance time, an all-failing store oracle for the
refresh endpoint). -/
theorem c2_kind_enforcement_witness :
    (verify_token ⟨"sec", "HS256", 1, 2⟩
        (create_access_token ⟨"sec", "HS256", 1, 2⟩ "u1" "a@x.com" 1000 1000).1
        "refresh" 1000
      = .error ⟨401, "Token inválido: se esperaba un refresh token"⟩)
    ∧ (verify_token ⟨"sec", "HS256", 1, 2⟩
        (create_refresh_token ⟨"sec", "HS256", 1, 2⟩ "u1" "a@x.com" 1000 1000).1
        "access" 1000
      = .error ⟨401, "Token inválido: se esperaba un access token"⟩)
    ∧ (refresh_token_endpoint ⟨"sec", "HS256", 1, 2⟩ (fun _ => .errMsg "down")
        (fun _ => .errMsg "down")
        ⟨(create_access_token ⟨"sec", "HS256", 1, 2⟩ "u1" "a@x.com" 1000 1000).1⟩ 1000
      = .error ⟨401, "Token inválido: no es un refresh token"⟩) := by
  have h := c2_kind_enforcement ⟨"sec", "HS256", 1, 2⟩ "u1" "a@x.com" 1000 1000 1000
  exact ⟨h.1 (by decide), h.2.1 (by decide),
    h.2.2 (fun _ => .errMsg "down") (fun _ => .errMsg "down") (by decide)⟩

/-- C3: Expiry boundary.  A token issued by either create function and
verified at any time at or after its `exp` fails with the expired-session
detail (HTTP 401); verified one second before `exp` (valid signature,
matching kind, non-empty subject) it succeeds, returning the full claim
set. -/
theorem c3_expiry_boundary (s : Settings) (uid email : String)
    (t tIat tv : Nat) (huid : uid ≠ "") :
    (t + s.ACCESS_TOKEN_EXPIRE_MINUTES * 60 ≤ tv →
      verify_token s (create_access_token s uid email t tIat).1 "access" tv
        = .error ⟨401, "Tu sesión ha expirado. Por favor, inicia sesión nuevamente."⟩)
    ∧ (t + s.REFRESH_TOKEN_EXPIRE_DAYS * 24 * 60 * 60 ≤ tv →
      verify_token s (create_refresh_token s uid email t tIat).1 "refresh" tv
        = .error ⟨401, "Tu sesión ha expirado. Por favor, inicia sesión nuevamente."⟩)
    ∧ (0 < s.ACCESS_TOKEN_EXPIRE_MINUTES →
      verify_token s (create_access_token s uid email t tIat).1 "access"
          (t + s.ACCESS_TOKEN_EXPIRE_MINUTES * 60 - 1)
        = .ok ⟨some uid, some email, t + s.ACCESS_TOKEN_EXPIRE_MINUTES * 60,
            tIat, some "access"⟩)
    ∧ (0 < s.REFRESH_TOKEN_EXPIRE_DAYS →
      verify_token s (create_refresh_token s uid email t tIat).1 "refresh"
          (t + s.REFRESH_TOKEN_EXPIRE_DAYS * 24 * 60 * 60 - 1)
        = .ok ⟨some uid, some email, t + s.REFRESH_TOKEN_EXPIRE_DAYS * 24 * 60 * 60,
            tIat, some "refresh"⟩) := by
  refine ⟨?_, ?_, ?_, ?_⟩
  · intro htv
    simp [verify_token, create_access_token, jwtEncode, jwtDecode, htv]
  · intro htv
    simp [verify_token, create_refresh_token, jwtEncode, jwtDecode, htv]
  · intro hpos
    have hne : ¬ (t + s.ACCESS_TOKEN_EXPIRE_MINUTES * 60 ≤
        t + s.ACCESS_TOKEN_EXPIRE_MINUTES * 60 - 1) := by omega
    simp [verify_token, create_access_token, jwtEncode, jwtDecode, truthyOptStr,
      huid, hne]
  · intro hpos
    have hne : ¬ (t + s.REFRESH_TOKEN_EXPIRE_DAYS * 24 * 60 * 60 ≤
        t + s.REFRESH_TOKEN_EXPIRE_DAYS * 24 * 60 * 60 - 1) := by omega
    simp [verify_token, create_refresh_token, jwtEncode, jwtDecode, truthyOptStr,
      huid, hne]

/-- Witness for C3 at concrete inputs: verification exactly at `exp`
(1060 = 1000 + 60) fails as expired; verification at `exp - 1` (1059, resp.
173799 for the refresh token) succeeds. -/
theorem c3_expiry_boundary_witness :
    (verify_token ⟨"sec", "HS256", 1, 2⟩
        (create_access_token ⟨"sec", "HS256", 1, 2⟩ "u1" "a@x.com" 1000 1000).1
        "access" 1060
      = .error ⟨401, "Tu sesión ha expirado. Por favor, inicia sesión nuevamente."⟩)
    ∧ (verify_token ⟨"sec", "HS256", 1, 2⟩
        (create_refresh_token ⟨"sec", "HS256", 1, 2⟩ "u1" "a@x.com" 1000 1000).1
        "refresh" 173800
      = .error ⟨401, "Tu sesión ha expirado. Por favor, inicia sesión nuevamente."⟩)
    ∧ (verify_token ⟨"sec", "HS256", 1, 2⟩
        (create_access_token ⟨"sec", "HS256", 1, 2⟩ "u1" "a@x.com" 1000 1000).1
        "access" (1000 + 1 * 60 - 1)
      = .ok ⟨some "u1", some "a@x.com", 1000 + 1 * 60, 1000, some "access"⟩)
    ∧ (verify_token ⟨"sec", "HS256", 1, 2⟩
        (create_refresh_token ⟨"sec", "HS256", 1, 2⟩ "u1" "a@x.com" 1000 1000).1
        "refresh" (1000 + 2 * 24 * 60 * 60 - 1)
      = .ok ⟨some "u1", some "a@x.com", 1000 + 2 * 24 * 60 * 60, 1000,
          some "refresh"⟩) := by
  have h := c3_expiry_boundary ⟨"sec", "HS256", 1, 2⟩ "u1" "a@x.com" 1000 1000
    1060 (by decide)
  have h2 := c3_expiry_boundary ⟨"sec", "HS256", 1, 2⟩ "u1" "a@x.com" 1000 1000
    173800 (by decide)
  exact ⟨h.1 (by decide), h2.2.1 (by decide), h.2.2.1 (by decide),
    h.2.2.2 (by decide)⟩

/-! ## Reconciler helper lemmas -/

/-- The `create_user_profile` loop never falls through as long as the final
attempt index `max_retries - 1` is among the attempts to run: on that
iteration the handler returns the basic profile instead of sleeping. -/
theorem create_go_fst_isSome_of_mem (ins : Nat → InsertResult)
    (uid email : String) (fn ph av : Option String) (now mr : Nat) :
    ∀ (l : List Nat) (d : Nat), mr - 1 ∈ l →
      ((create_user_profile_go ins uid email fn ph av now mr l d).1).isSome := by
  intro l
  induction l with
  | nil => intro d h; simp at h
  | cons a as ih =>
    intro d h
    cases hi : ins a with
    | inserted p => simp [create_user_profile_go, hi]
    | emptyData => simp [create_user_profile_go, hi]
    | errMsg m =>
      by_cases ha : a = mr - 1
      · subst ha
        simp [create_user_profile_go, hi]
      · have hmem : mr - 1 ∈ as := by
          rcases List.mem_cons.mp h with h' | h'
          · exact absurd h'.symm ha
          · exact h'
        simpa [create_user_profile_go, hi, ha] using ih (d * 2) hmem

/-- Every profile the `create_user_profile` loop returns carries
`id = user_id`, provided the store echoes inserted rows faithfully (the
inserted `user_data` has `"id": user_id`, line 102). -/
theorem create_go_id_of_store (ins : Nat → InsertResult) (uid email : String)
    (fn ph av : Option String) (now mr : Nat)
    (hins : ∀ k p, ins k = .inserted p → p.id = uid) :
    ∀ (l : List Nat) (d : Nat) (p : Profile),
      (create_user_profile_go ins uid email fn ph av now mr l d).1 = some p →
      p.id = uid := by
  intro l
  induction l with
  | nil => intro d p h; simp [create_user_profile_go] at h
  | cons a as ih =>
    intro d p h
    cases hi : ins a with
    | inserted q =>
      simp [create_user_profile_go, hi] at h
      subst h
      exact hins a q hi
    | emptyData =>
      simp [create_user_profile_go, hi] at h
      subst h
      rfl
    | errMsg m =>
      by_cases ha : a = mr - 1
      · subst ha
        simp [create_user_profile_go, hi] at h
        subst h
        rfl
      · simp [create_user_profile_go, hi, ha] at h
        exact ih (d * 2) p h

/-- `create_user_profile` (5 attempts) always returns a profile. -/
theorem create_user_profile_fst_isSome (ins : Nat → InsertResult)
    (uid email : String) (fn ph av : Option String) (now : Nat) :
    ((create_user_profile ins uid email fn ph av now).1).isSome :=
  create_go_fst_isSome_of_mem ins uid email fn ph av now 5 (List.range 5) 300
    (by decide)

/-- `create_user_profile` only returns profiles keyed by `user_id`. -/
theorem create_user_profile_id (ins : Nat → InsertResult) (uid email : String)
    (fn ph av : Option String) (now : Nat)
    (hins : ∀ k p, ins k = .inserted p → p.id = uid) (p : Profile)
    (h : (create_user_profile ins uid email fn ph av now).1 = some p) :
    p.id = uid :=
  create_go_id_of_store ins uid email fn ph av now 5 hins (List.range 5) 300 p h

/-- The `get_or_create_user_profile` loop never falls through as long as
the final attempt index is among the attempts to run. -/
theorem get_go_fst_isSome_of_mem (rd : Nat → ReadResult)
    (ins : Nat → InsertResult) (uid email : String) (fn ph av : Option String)
    (now mr : Nat) :
    ∀ (l : List Nat) (d : Nat), mr - 1 ∈ l →
      ((get_or_create_user_profile_go rd ins uid email fn ph av now mr l
        d).1).isSome := by
  intro l
  induction l with
  | nil => intro d h; simp at h
  | cons a as ih =>
    intro d h
    cases hr : rd a with
    | found p => simp [get_or_create_user_profile_go, hr]
    | emptyData =>
      simpa [get_or_create_user_profile_go, hr] using
        create_user_profile_fst_isSome ins uid email fn ph av now
    | errMsg m =>
      by_cases hn : noRowsErrorMsg m
      · simpa [get_or_create_user_profile_go, hr, hn] using
          create_user_profile_fst_isSome ins uid email fn ph av now
      · by_cases ha : a < mr - 1
        · have hmem : mr - 1 ∈ as := by
            rcases List.mem_cons.mp h with h' | h'
            · omega
            · exact h'
          simpa [get_or_create_user_profile_go, hr, hn, ha] using
            ih (d * 2) hmem
        · simp [get_or_create_user_profile_go, hr, hn, ha]

/-- Every profile the `get_or_create_user_profile` loop returns carries
`id = user_id`, provided the store answers the `eq("id", user_id)` read
only with matching rows and echoes inserted rows faithfully. -/
theorem get_go_id_of_store (rd : Nat → ReadResult) (ins : Nat → InsertResult)
    (uid email : String) (fn ph av : Option String) (now mr : Nat)
    (hins : ∀ k p, ins k = .inserted p → p.id = uid)
    (hrd : ∀ k p, rd k = .found p → p.id = uid) :
    ∀ (l : List Nat) (d : Nat) (p : Profile),
      (get_or_create_user_profile_go rd ins uid email fn ph av now mr l
        d).1 = some p → p.id = uid := by
  intro l
  induction l with
  | nil => intro d p h; simp [get_or_create_user_profile_go] at h
  | cons a as ih =>
    intro d p h
    cases hr : rd a with
    | found q =>
      simp [get_or_create_user_profile_go, hr] at h
      subst h
      exact hrd a q hr
    | emptyData =>
      simp [get_or_create_user_profile_go, hr] at h
      exact create_user_profile_id ins uid email fn ph av now hins p h
    | errMsg m =>
      by_cases hn : noRowsErrorMsg m
      · simp [get_or_create_user_profile_go, hr, hn] at h
        exact create_user_profile_id ins uid email fn ph av now hins p h
      · by_cases ha : a < mr - 1
        · simp [get_or_create_user_profile_go, hr, hn, ha] at h
          exact ih (d * 2) p h
        · simp [get_or_create_user_profile_go, hr, hn, ha] at h
          subst h
          rfl

/-- C4: Degraded-mode fallback.  When every retry attempt fails —
all 5 inserts raise for `create_user_profile`, all 3 reads raise a
non-"no rows" error for `get_or_create_user_profile` — both functions
return (rather than raise) the synthesized in-memory profile built from
the supplied hints with the current time as `created_at`. -/
theorem c4_degraded_fallback (ins : Nat → InsertResult) (rd : Nat → ReadResult)
    (uid email : String) (fn ph av : Option String) (now : Nat)
    (hins : ∀ k, k < 5 → ∃ m, ins k = .errMsg m)
    (hrd : ∀ k, k < 3 → ∃ m, rd k = .errMsg m ∧ noRowsErrorMsg m = false) :
    (create_user_profile ins uid email fn ph av now).1
      = some (basic_profile uid email fn ph av now)
    ∧ (get_or_create_user_profile rd ins uid email fn ph av now).1
      = some (basic_profile uid email fn ph av now) := by
  obtain ⟨m0, h0⟩ := hins 0 (by omega)
  obtain ⟨m1, h1⟩ := hins 1 (by omega)
  obtain ⟨m2, h2⟩ := hins 2 (by omega)
  obtain ⟨m3, h3⟩ := hins 3 (by omega)
  obtain ⟨m4, h4⟩ := hins 4 (by omega)
  obtain ⟨n0, g0, g0f⟩ := hrd 0 (by omega)
  obtain ⟨n1, g1, g1f⟩ := hrd 1 (by omega)
  obtain ⟨n2, g2, g2f⟩ := hrd 2 (by omega)
  constructor
  · simp [create_user_profile, create_user_profile_go, h0, h1, h2, h3, h4]
  · simp [get_or_create_user_profile, get_or_create_user_profile_go,
      g0, g0f, g1, g1f, g2, g2f]

/-- Witness for C4: a store whose inserts all raise `"db down"` and whose
reads all raise `"connection reset"`. -/
theorem c4_degraded_fallback_witness :
    (create_user_profile (fun _ => .errMsg "db down") "u1" "a@x.com"
        (some "Ana") (some "555") none 99).1
      = some (basic_profile "u1" "a@x.com" (some "Ana") (some "555") none 99)
    ∧ (get_or_create_user_profile (fun _ => .errMsg "connection reset")
        (fun _ => .errMsg "db down") "u1" "a@x.com" (some "Ana") (some "555")
        none 99).1
      = some (basic_profile "u1" "a@x.com" (some "Ana") (some "555") none 99) :=
  c4_degraded_fallback (fun _ => .errMsg "db down")
    (fun _ => .errMsg "connection reset") "u1" "a@x.com" (some "Ana")
    (some "555") none 99
    (fun k _ => ⟨"db down", rfl⟩)
    (fun k _ => ⟨"connection reset", rfl, by decide⟩)

/-- C5: Reconciler algorithm order for `get_or_create_user_profile`
(3 attempts, initial delay 0.2 s = 200 ms):
(i) a row found on the first read is returned immediately with no waiting;
(ii) a first read failing with a "no rows"/"not found" condition delegates
to `create_user_profile` on the hints;
(iii) any other read failure waits the current delay (200 ms) and retries,
so a row found on the second read is returned after the single wait;
(iv) two generic failures wait 200 ms then the doubled 400 ms, and a row
found on the third (final) attempt is returned after those two waits;
(v) three generic failures exhaust the attempt bound and fall back to the
synthesized profile after waits of exactly 200 ms and 400 ms. -/
theorem c5_reconciler_order (rd : Nat → ReadResult) (ins : Nat → InsertResult)
    (uid email : String) (fn ph av : Option String) (now : Nat) :
    (∀ p, rd 0 = .found p →
      get_or_create_user_profile rd ins uid email fn ph av now = (some p, []))
    ∧ (∀ m, rd 0 = .errMsg m → noRowsErrorMsg m = true →
      get_or_create_user_profile rd ins uid email fn ph av now
        = create_user_profile ins uid email fn ph av now)
    ∧ (∀ m p, rd 0 = .errMsg m → noRowsErrorMsg m = false → rd 1 = .found p →
      get_or_create_user_profile rd ins uid email fn ph av now
        = (some p, [200]))
    ∧ (∀ m0 m1 p, rd 0 = .errMsg m0 → noRowsErrorMsg m0 = false →
      rd 1 = .errMsg m1 → noRowsErrorMsg m1 = false → rd 2 = .found p →
      get_or_create_user_profile rd ins uid email fn ph av now
        = (some p, [200, 400]))
    ∧ (∀ m0 m1 m2, rd 0 = .errMsg m0 → noRowsErrorMsg m0 = false →
      rd 1 = .errMsg m1 → noRowsErrorMsg m1 = false →
      rd 2 = .errMsg m2 → noRowsErrorMsg m2 = false →
      get_or_create_user_profile rd ins uid email fn ph av now
        = (some (basic_profile uid email fn ph av now), [200, 400])) := by
  refine ⟨?_, ?_, ?_, ?_, ?_⟩
  · intro p h0
    simp [get_or_create_user_profile, get_or_create_user_profile_go, h0]
  · intro m h0 hn
    simp [get_or_create_user_profile, get_or_create_user_profile_go, h0, hn]
  · intro m p h0 hn h1
    simp [get_or_create_user_profile, get_or_create_user_profile_go, h0, hn, h1]
  · intro m0 m1 p h0 hn0 h1 hn1 h2
    simp [get_or_create_user_profile, get_or_create_user_profile_go,
      h0, hn0, h1, hn1, h2]
  · intro m0 m1 m2 h0 hn0 h1 hn1 h2 hn2
    simp [get_or_create_user_profile, get_or_create_user_profile_go,
      h0, hn0, h1, hn1, h2, hn2]

/-- Witness for C5, exercising branch (iv): generic read errors on the
first two attempts, the row appearing on the third attempt, returned after
waits of 200 ms and 400 ms. -/
theorem c5_reconciler_order_witness :
    get_or_create_user_profile
      (fun k => if k = 0 then .errMsg "timeout A"
        else if k = 1 then .errMsg "timeout B"
        else .found ⟨"u1", some "a@x.com", some "Ana", none, none, some 50⟩)
      (fun _ => .errMsg "db down") "u1" "a@x.com" none none none 99
      = (some ⟨"u1", some "a@x.com", some "Ana", none, none, some 50⟩,
        [200, 400]) :=
  (c5_reconciler_order
      (fun k => if k = 0 then .errMsg "timeout A"
        else if k = 1 then .errMsg "timeout B"
        else .found ⟨"u1", some "a@x.com", some "Ana", none, none, some 50⟩)
      (fun _ => .errMsg "db down") "u1" "a@x.com" none none none
      99).2.2.2.1 "timeout A" "timeout B"
    ⟨"u1", some "a@x.com", some "Ana", none, none, some 50⟩
    rfl (by decide) rfl (by decide) rfl

/-- C10: Reconciler totality and identifier invariant.  For every store
oracle, `create_user_profile` and `get_or_create_user_profile` return a
profile on every code path (the Python loops never fall through, so the
functions never return `None` and never propagate an exception), and —
provided the store answers the `eq("id", user_id)` read only with rows
keyed by `user_id` and echoes back the inserted row (whose `"id"` field is
`user_id`, line 102) — every returned profile, whether read, inserted or
synthesized, has `id = user_id`. -/
theorem c10_reconciler_totality_and_id (rd : Nat → ReadResult)
    (ins : Nat → InsertResult) (uid email : String)
    (fn ph av : Option String) (now : Nat)
    (hins : ∀ k p, ins k = .inserted p → p.id = uid)
    (hrd : ∀ k p, rd k = .found p → p.id = uid) :
    (∃ p, (create_user_profile ins uid email fn ph av now).1 = some p)
    ∧ (∃ p, (get_or_create_user_profile rd ins uid email fn ph av now).1
        = some p)
    ∧ (∀ p, (create_user_profile ins uid email fn ph av now).1 = some p →
        p.id = uid)
    ∧ (∀ p, (get_or_create_user_profile rd ins uid email fn ph av now).1
        = some p → p.id = uid) := by
  refine ⟨?_, ?_, ?_, ?_⟩
  · exact Option.isSome_iff_exists.mp
      (create_user_profile_fst_isSome ins uid email fn ph av now)
  · exact Option.isSome_iff_exists.mp
      (get_go_fst_isSome_of_mem rd ins uid email fn ph av now 3 (List.range 3)
        200 (by decide))
  · exact fun p h => create_user_profile_id ins uid email fn ph av now hins p h
  · exact fun p h => get_go_id_of_store rd ins uid email fn ph av now 3 hins
      hrd (List.range 3) 200 p h

/-- Witness for C10: a store whose reads raise and whose inserts first
raise, then succeed echoing the keyed row. -/
theorem c10_reconciler_totality_and_id_witness :
    (∃ p, (create_user_profile
        (fun k => if k = 0 then .errMsg "oops"
          else .inserted ⟨"u1", some "a@x.com", none, none, none, some 5⟩)
        "u1" "a@x.com" none none none 99).1 = some p)
    ∧ (∃ p, (get_or_create_user_profile (fun _ => .errMsg "oops")
        (fun k => if k = 0 then .errMsg "oops"
          else .inserted ⟨"u1", some "a@x.com", none, none, none, some 5⟩)
        "u1" "a@x.com" none none none 99).1 = some p)
    ∧ (∀ p, (create_user_profile
        (fun k => if k = 0 then .errMsg "oops"
          else .inserted ⟨"u1", some "a@x.com", none, none, none, some 5⟩)
        "u1" "a@x.com" none none none 99).1 = some p → p.id = "u1")
    ∧ (∀ p, (get_or_create_user_profile (fun _ => .errMsg "oops")
        (fun k => if k = 0 then .errMsg "oops"
          else .inserted ⟨"u1", some "a@x.com", none, none, none, some 5⟩)
        "u1" "a@x.com" none none none 99).1 = some p → p.id = "u1") := by
  refine c10_reconciler_totality_and_id (fun _ => .errMsg "oops")
    (fun k => if k = 0 then .errMsg "oops"
      else .inserted ⟨"u1", some "a@x.com", none, none, none, some 5⟩)
    "u1" "a@x.com" none none none 99 ?_ ?_
  · intro k p h
    by_cases hk : k = 0
    · subst hk; simp at h
    · simp [hk] at h
      subst h
      rfl
  · intro k p h
    simp at h

/-- C6 (evaluating the code at the failing input): a fully successful
`register` — the provider returns a user, tokens are minted — produces an
`AuthResponse` containing only `access_token`, `token_type = "bearer"`,
`expires_in` and `user`.  `"refresh_token"` is not among the serialized
response keys, and the constructed response is independent of the
`refresh_token` argument the handler passes: pydantic drops it because
`AuthResponse` declares no such field. -/
theorem c6_missing_refresh_token_field :
    register ⟨"sec", "HS256", 1, 2⟩ (.user "u1" "a@x.com")
        (fun _ => .errMsg "db down") ⟨"a@x.com", "secret1", some "Ana", none⟩ 99
      = .ok ⟨⟨⟨some "u1", some "a@x.com", 159, 99, some "access"⟩, "sec", "HS256"⟩,
          "bearer", 60, ⟨"u1", some "a@x.com", some "Ana", none, none, some 99⟩⟩
    ∧ ("refresh_token" ∈ authResponseKeys → False)
    ∧ (∀ (a r r' : Token) (tt : String) (e : Nat) (u : UserResponse),
        mkAuthResponse a r tt e u = mkAuthResponse a r' tt e u) :=
  ⟨by decide, by decide, fun _ _ _ _ _ _ => rfl⟩

/-- C7 counterexample: the identity reconciler loses a race — the first
read reports a "no rows" condition, every insert then fails with the
uniqueness-violation message — while the stored row (with
`full_name = "Stored Name"`) would be visible to any re-read (the read
oracle returns it from attempt 1 on).  The code returns the synthesized
profile built from the hints, not the stored row: it never re-reads after
switching to creation, refuting the claim that the losing attempt re-reads
and returns the existing row. -/
theorem c7_concurrent_conflict_counterexample :
    (get_or_create_user_profile
        (fun k => if k = 0 then .errMsg "JSON object requested: no rows returned"
          else .found ⟨"u1", some "a@x.com", some "Stored Name", some "123",
            none, some 50⟩)
        (fun _ => .errMsg "duplicate key value violates unique constraint users_pkey")
        "u1" "a@x.com" (some "Hint Name") none none 99).1
      = some (basic_profile "u1" "a@x.com" (some "Hint Name") none none 99)
    ∧ basic_profile "u1" "a@x.com" (some "Hint Name") none none 99
      ≠ ⟨"u1", some "a@x.com", some "Stored Name", some "123", none, some 50⟩ := by
  decide

/-- C7 (amended): when the reconciler has decided the row is missing and
every insert attempt then fails — as happens when a concurrent attempt
already created the row and each insert hits the uniqueness constraint —
the losing attempt does not propagate a hard failure: it retries the
insert with backoff (300, 600, 1200, 2400 ms) and, once the 5 attempts are
exhausted, returns the synthesized profile built from the hints; it does
not re-read or return the stored row. -/
theorem c7_concurrent_conflict_amended (rd : Nat → ReadResult)
    (ins : Nat → InsertResult) (uid email : String)
    (fn ph av : Option String) (now : Nat) (m0 : String)
    (h0 : rd 0 = .errMsg m0) (hn : noRowsErrorMsg m0 = true)
    (hins : ∀ k, k < 5 → ∃ m, ins k = .errMsg m) :
    get_or_create_user_profile rd ins uid email fn ph av now
      = (some (basic_profile uid email fn ph av now), [300, 600, 1200, 2400]) := by
  obtain ⟨i0, hi0⟩ := hins 0 (by omega)
  obtain ⟨i1, hi1⟩ := hins 1 (by omega)
  obtain ⟨i2, hi2⟩ := hins 2 (by omega)
  obtain ⟨i3, hi3⟩ := hins 3 (by omega)
  obtain ⟨i4, hi4⟩ := hins 4 (by omega)
  simp [get_or_create_user_profile, get_or_create_user_profile_go, h0, hn,
    create_user_profile, create_user_profile_go, hi0, hi1, hi2, hi3, hi4]

/-- Witness for the amended C7: concrete no-rows read followed by five
uniqueness-violation insert failures. -/
theorem c7_concurrent_conflict_amended_witness :
    get_or_create_user_profile
      (fun _ => .errMsg "Results contain 0 rows: not found")
      (fun _ => .errMsg "duplicate key value violates unique constraint")
      "u2" "b@x.com" none (some "777") none 42
      = (some (basic_profile "u2" "b@x.com" none (some "777") none 42),
        [300, 600, 1200, 2400]) :=
  c7_concurrent_conflict_amended
    (fun _ => .errMsg "Results contain 0 rows: not found")
    (fun _ => .errMsg "duplicate key value violates unique constraint")
    "u2" "b@x.com" none (some "777") none 42
    "Results contain 0 rows: not found" rfl (by decide)
    (fun k _ => ⟨"duplicate key value violates unique constraint", rfl⟩)

/-- C8: Profile resolution for an established session
(`AuthDependency.get_current_user`): for an already-verified subject id,
a profile read that comes back with no data yields HTTP 404, and an
existing row is returned as-is. -/
theorem c8_resolve_profile_for_session (uid : String) :
    (get_current_user .emptyData uid
      = .error ⟨404,
        "Usuario no encontrado. Es posible que tu cuenta haya sido eliminada."⟩)
    ∧ (∀ p, get_current_user (.found p) uid = .ok p) :=
  ⟨rfl, fun _ => rfl⟩

/-- Whatever the `data` list of the update response, the table state after
a non-empty `update_profile` call is the pointwise partial update. -/
theorem update_profile_snd (d : UpdateProfileRequest) (uid : String)
    (users : List Profile)
    (hcond : ¬(build_update_data d = ⟨none, none, none⟩)) :
    (update_profile d uid users).2
      = (users_update users (build_update_data d) uid).1 := by
  simp only [update_profile]
  rw [if_neg hcond]
  cases hx : (users_update users (build_update_data d) uid).2 <;> simp [hx]

/-- C9: Profile update field subset and emptiness check.  (i) If none of
`full_name`, `phone`, `avatar_url` is provided, `update_profile` fails
with HTTP 400 and the table is returned unchanged.  (ii) Otherwise the
resulting table is the pointwise partial update of exactly the rows keyed
by `user_id`, every other row being untouched.  (iii) The partial update
rewrites exactly the provided fields; `id`, `email`, `created_at` and any
field not provided keep their stored values. -/
theorem c9_update_profile_subset (d : UpdateProfileRequest) (uid : String)
    (users : List Profile) :
    (d.full_name = none → d.phone = none → d.avatar_url = none →
      update_profile d uid users
        = (.error ⟨400, "Debes proporcionar al menos un campo para actualizar"⟩,
          users))
    ∧ (¬(d.full_name = none ∧ d.phone = none ∧ d.avatar_url = none) →
      (update_profile d uid users).2
        = users.map fun p =>
            if p.id = uid then apply_update (build_update_data d) p else p)
    ∧ (∀ p, (apply_update (build_update_data d) p).id = p.id
        ∧ (apply_update (build_update_data d) p).email = p.email
        ∧ (apply_update (build_update_data d) p).created_at = p.created_at
        ∧ (apply_update (build_update_data d) p).full_name
            = (match d.full_name with | some v => some v | none => p.full_name)
        ∧ (apply_update (build_update_data d) p).phone
            = (match d.phone with | some v => some v | none => p.phone)
        ∧ (apply_update (build_update_data d) p).avatar_url
            = (match d.avatar_url with | some v => some v | none => p.avatar_url)) := by
  refine ⟨?_, ?_, fun p => ⟨rfl, rfl, rfl, rfl, rfl, rfl⟩⟩
  · intro h1 h2 h3
    simp [update_profile, build_update_data, h1, h2, h3]
  · intro h
    have hcond : ¬(build_update_data d = ⟨none, none, none⟩) := by
      simp only [build_update_data, UpdateData.mk.injEq]
      tauto
    rw [update_profile_snd d uid users hcond]
    rfl

/-- Witness for C9: an empty update on a two-row table is rejected with
HTTP 400 leaving the table unchanged; an update providing only `phone`
rewrites only the phone of the matching row. -/
theorem c9_update_profile_subset_witness :
    (update_profile ⟨none, none, none⟩ "u1"
        [⟨"u1", some "a@x.com", some "Ana", some "111", none, some 5⟩,
          ⟨"u2", some "b@x.com", none, none, none, some 6⟩]
      = (.error ⟨400, "Debes proporcionar al menos un campo para actualizar"⟩,
        [⟨"u1", some "a@x.com", some "Ana", some "111", none, some 5⟩,
          ⟨"u2", some "b@x.com", none, none, none, some 6⟩]))
    ∧ ((update_profile ⟨none, some "777", none⟩ "u1"
        [⟨"u1", some "a@x.com", some "Ana", some "111", none, some 5⟩,
          ⟨"u2", some "b@x.com", none, none, none, some 6⟩]).2
      = [⟨"u1", some "a@x.com", some "Ana", some "777", none, some 5⟩,
          ⟨"u2", some "b@x.com", none, none, none, some 6⟩]) := by
  constructor
  · exact (c9_update_profile_subset ⟨none, none, none⟩ "u1"
      [⟨"u1", some "a@x.com", some "Ana", some "111", none, some 5⟩,
        ⟨"u2", some "b@x.com", none, none, none, some 6⟩]).1 rfl rfl rfl
  · have h := (c9_update_profile_subset ⟨none, some "777", none⟩ "u1"
      [⟨"u1", some "a@x.com", some "Ana", some "111", none, some 5⟩,
        ⟨"u2", some "b@x.com", none, none, none, some 6⟩]).2.1 (by simp)
    simpa using h
